import Mathlib

/-!
# Shallow embedding of the Mammut Mastodon client core (src/lib.rs)

This file embeds the data model and the request-dispatch engine of the
Mammut library in Lean. JSON bodies are modelled as an inductive `Json`
value; a raw HTTP body is `Option Json` (`none` meaning bytes that are not
syntactically valid JSON, so that both decode attempts made by
`deserialise` see the same syntactic outcome). Decoders for concrete Rust
types (serde `Deserialize` impls) are functions `Json → Except SerdeError α`.
The HTTP transport (`reqwest`) is modelled as an oracle
`Server : Request → Except HttpError Response` supplied to each call, so a
dispatched operation is a pure function of the client value and the server
oracle. Methods taking `&self` in Rust are embedded in state-passing style,
returning the (necessarily unchanged) client alongside the result, so that
statelessness is a provable statement rather than an assumption.
-/

namespace Mammut

/-- JSON values, the common syntax tree both serde decode attempts operate on. -/
inductive Json where
  | null : Json
  | bool (b : Bool) : Json
  | num (n : Int) : Json
  | str (s : String) : Json
  | arr (elems : List Json) : Json
  | obj (fields : List (String × Json)) : Json

/-- Raw response body: `none` models bytes that are not valid JSON syntax. -/
abbrev RawBody : Type := Option Json

/-- `serde_json::Error`, carried as its diagnostic message. -/
abbrev SerdeError : Type := String

/-- `reqwest::Error`, carried as its diagnostic message. -/
abbrev HttpError : Type := String

/-- `std::io::Error`, carried as its diagnostic message. -/
abbrev IoError : Type := String

/-- `url::ParseError`, carried as its diagnostic message. -/
abbrev UrlError : Type := String

/-- `reqwest::StatusCode`, the numeric HTTP status. -/
abbrev StatusCode : Type := Nat

/-- `StatusCode::is_client_error` from reqwest: the 4xx range. -/
def isClientError (s : StatusCode) : Bool := 400 ≤ (s : Nat) && (s : Nat) < 500

/-- `StatusCode::is_server_error` from reqwest: the 5xx range. -/
def isServerError (s : StatusCode) : Bool := 500 ≤ (s : Nat) && (s : Nat) < 600

/-- `ApiError` (lib.rs): structured error body returned by the Mastodon API. -/
structure ApiError where
  error : String
  error_description : Option String
deriving Repr, DecidableEq

/-- The `Error` enum of lib.rs. -/
inductive Error where
  | Api (e : ApiError) : Error
  | Serde (e : SerdeError) : Error
  | Http (e : HttpError) : Error
  | Io (e : IoError) : Error
  | Url (e : UrlError) : Error
  | ClientIdRequired : Error
  | ClientSecretRequired : Error
  | AccessTokenRequired : Error
  | Client (status : StatusCode) : Error
  | Server (status : StatusCode) : Error
deriving Repr, DecidableEq

/-- `Result<T>` of lib.rs: `std::result::Result<T, Error>`. -/
abbrev Result (α : Type) : Type := Except Error α

/-- The `Data` struct (lib.rs): the persisted session record. -/
structure Data where
  base : String
  client_id : String
  client_secret : String
  redirect : String
  token : String
deriving Repr, DecidableEq

/-- `reqwest::Client`, opaque and stateless in this model. -/
abbrev Client : Type := Unit

/-- `reqwest::Client::new()`. -/
def Client.new : Client := ()

/-- A single HTTP header, rendered as name/value strings. -/
abbrev Header : Type := String × String

/-- `Authorization(Bearer { token })` renders as `Authorization: Bearer {token}`. -/
def authorizationBearer (token : String) : Header :=
  ("Authorization", "Bearer " ++ token)

/-- The `Mastodon` struct (lib.rs). -/
structure Mastodon where
  client : Client
  headers : List Header
  data : Data

/-- HTTP verbs used by the generated route methods. -/
inductive Verb where
  | get | post | delete | patch
deriving Repr, DecidableEq

/-- One outgoing HTTP request, as assembled by a route method. -/
structure Request where
  verb : Verb
  url : String
  headers : List Header
  body : Option Json

/-- An HTTP response: status plus the outcome of `read_to_end` on its body
(`Except` for the possible `std::io::Error`, then the raw bytes as `RawBody`). -/
structure Response where
  status : StatusCode
  readResult : Except IoError RawBody

/-- A deterministic mock transport: what `client.{get,post,...}(url)...send()`
returns for each request. -/
abbrev Server : Type := Request → Except HttpError Response

/-- `json::from_slice` on raw bytes using decoder `decode`: bytes that are not
valid JSON fail with a syntax error before any shape is considered; both
decode attempts in `deserialise` run on the same bytes and hence the same
`RawBody`. -/
def fromSlice {α : Type} (decode : Json → Except SerdeError α) (body : RawBody) :
    Except SerdeError α :=
  match body with
  | none => Except.error "expected value"
  | some j => decode j

/-- `List.find?`-based lookup of a JSON object field by name, first match. -/
def lookupField (fields : List (String × Json)) (name : String) : Option Json :=
  (fields.find? (fun p => p.1 == name)).map (fun p => p.2)

/-- The serde `Deserialize` impl derived for `ApiError`: requires an object
with a string field `error`; `error_description` is optional (absent or
`null` give `none`); unknown fields are ignored. -/
def decodeApiError (j : Json) : Except SerdeError ApiError :=
  match j with
  | Json.obj fields =>
    match lookupField fields "error" with
    | some (Json.str e) =>
      match lookupField fields "error_description" with
      | none => Except.ok ⟨e, none⟩
      | some Json.null => Except.ok ⟨e, none⟩
      | some (Json.str d) => Except.ok ⟨e, some d⟩
      | some _ => Except.error "invalid type for field error_description"
    | some _ => Except.error "invalid type for field error"
    | none => Except.error "missing field error"
  | _ => Except.error "invalid type: expected struct ApiError"

/-- The `deserialise` function of lib.rs: read the body (propagating the io
error), try to decode it as the expected type, and on failure retry the same
bytes as an `ApiError`; if that succeeds fail with `Error::Api`, otherwise
propagate the first decode failure as `Error::Serde`. -/
def deserialise {α : Type} (decode : Json → Except SerdeError α) (response : Response) :
    Result α :=
  match response.readResult with
  | Except.error e => Except.error (Error.Io e)
  | Except.ok vec =>
    match fromSlice decode vec with
    | Except.ok t => Except.ok t
    | Except.error e =>
      match fromSlice decodeApiError vec with
      | Except.ok error => Except.error (Error.Api error)
      | Except.error _ => Except.error (Error.Serde e)

/-- `Mastodon::from_registration` (lib.rs): builds the `Data` record from the
five strings, then sets the single `Authorization: Bearer` header. -/
def Mastodon.from_registration (base client_id client_secret redirect token : String)
    (client : Client) : Mastodon :=
  { client := client
    headers := [authorizationBearer token]
    data := { base := base, client_id := client_id, client_secret := client_secret,
              redirect := redirect, token := token } }

/-- `Mastodon::from_data` (lib.rs): fresh client, single bearer header from
the token field of the given record. -/
def Mastodon.from_data (data : Data) : Mastodon :=
  { client := Client.new
    headers := [authorizationBearer data.token]
    data := data }

/-- `Mastodon::route` (lib.rs): plain string concatenation of the base and
the given path, with no separator or normalisation. -/
def Mastodon.route (m : Mastodon) (url : String) : String :=
  m.data.base ++ url

/-- The request assembled by a `methods!`-generated verb helper
(`self.client.$method(&url).headers(self.headers.clone())`): no body. -/
def methodRequest (m : Mastodon) (verb : Verb) (url : String) : Request :=
  { verb := verb, url := url, headers := m.headers, body := none }

/-- A `methods!`-generated verb helper (`get`/`post`/`delete` in lib.rs):
send the request, propagate a transport failure as `Error::Http`, and hand
the response straight to `deserialise` — there is no status inspection on
this path. Returned in state-passing style: the second component is the
client after the call. -/
def methodCall {α : Type} (decode : Json → Except SerdeError α) (m : Mastodon)
    (server : Server) (verb : Verb) (url : String) : Result α × Mastodon :=
  match server (methodRequest m verb url) with
  | Except.error e => (Except.error (Error.Http e), m)
  | Except.ok response => (deserialise decode response, m)

/-- The response handling of the parameterised `route!` arms and of
`update_credentials` (lib.rs): classify 4xx as `Error::Client` and 5xx as
`Error::Server` before any decode attempt, otherwise deserialise the body. -/
def routeResponseHandler {α : Type} (decode : Json → Except SerdeError α)
    (response : Response) : Result α :=
  let status := response.status
  if isClientError status then Except.error (Error.Client status)
  else if isServerError status then Except.error (Error.Server status)
  else deserialise decode response

/-- A parameterised `route!` arm (lib.rs): send the JSON form body, propagate
transport failure, then status-classify and deserialise. -/
def routeJsonCall {α : Type} (decode : Json → Except SerdeError α) (m : Mastodon)
    (server : Server) (verb : Verb) (url : String) (form_data : Json) :
    Result α × Mastodon :=
  match server { verb := verb, url := url, headers := m.headers, body := some form_data } with
  | Except.error e => (Except.error (Error.Http e), m)
  | Except.ok response => (routeResponseHandler decode response, m)

/-- A plain `route!` arm `(($method) $name: $url => $ret)` (lib.rs): delegate
to the `methods!` helper on `self.route("/api/v1/" ++ url)`. -/
def plainRouteCall {α : Type} (decode : Json → Except SerdeError α) (m : Mastodon)
    (server : Server) (verb : Verb) (url : String) : Result α × Mastodon :=
  methodCall decode m server verb (m.route ("/api/v1/" ++ url))

/-- Substitute the first `\x7b\x7d` placeholder in a template by `v`,
modelling what `format!` does to the route templates used by `route_id!`
(each holds exactly one placeholder and no other brace). -/
def substPlaceholder (v : List Char) : List Char → List Char
  | [] => []
  | [c] => [c]
  | c :: d :: rest =>
    if c = '{' ∧ d = '}' then v ++ rest
    else c :: substPlaceholder v (d :: rest)

/-- Whether a template contains the `\x7b\x7d` placeholder. -/
def hasPlaceholder : List Char → Bool
  | c :: d :: rest => (decide (c = '{') && decide (d = '}')) || hasPlaceholder (d :: rest)
  | _ => false

/-- `format!(concat!("/api/v1/", url), id)` as used by `route_id!`. -/
def formatId (template : String) (id : Nat) : String :=
  String.mk (substPlaceholder (Nat.repr id).data template.data)

/-- A `route_id!` arm (lib.rs): substitute the numeric id into the template
and delegate to the `methods!` helper on `self.route(...)`. -/
def routeIdCall {α : Type} (decode : Json → Except SerdeError α) (m : Mastodon)
    (server : Server) (verb : Verb) (url : String) (id : Nat) : Result α × Mastodon :=
  methodCall decode m server verb (m.route (formatId ("/api/v1/" ++ url) id))

/-- `String::pop` (Rust): remove the last character of the string. -/
def strPop (s : String) : String := String.mk s.data.dropLast

/-- `Mastodon::relationships` (lib.rs): start from
`route("/api/v1/accounts/relationships?")`; with exactly one id append
`id=<id>`; otherwise append `id[]=<id>&` per id and pop the final character. -/
def relationshipsUrl (m : Mastodon) (ids : List Nat) : String :=
  let url := m.route "/api/v1/accounts/relationships?"
  if h : ids.length = 1 then
    url ++ "id=" ++ Nat.repr (ids.get ⟨0, by omega⟩)
  else
    strPop (ids.foldl (fun u id => u ++ "id[]=" ++ Nat.repr id ++ "&") url)

/-- `Mastodon::relationships` itself: a GET through the `methods!` helper at
the URL built above. -/
def relationships {α : Type} (decode : Json → Except SerdeError α) (m : Mastodon)
    (server : Server) (ids : List Nat) : Result α × Mastodon :=
  methodCall decode m server Verb.get (relationshipsUrl m ids)

/-- Characters allowed after the first character of a URL scheme
(RFC 3986 / the `url` crate): letters, digits, `+`, `-`, `.`. -/
def isSchemeChar (c : Char) : Bool := c.isAlphanum || c = '+' || c = '-' || c = '.'

/-- Scan the tail of a candidate scheme: accepted when a `:` is reached
through scheme characters only. -/
def schemeTail : List Char → Bool
  | [] => false
  | c :: rest => if c = ':' then true else isSchemeChar c && schemeTail rest

/-- `url::Url::parse` succeeds only on absolute URLs: the string must open
with a letter-led scheme terminated by `:`; otherwise parsing fails (for
example with `RelativeUrlWithoutBase` on an empty or path-only string). -/
def urlHasScheme (s : String) : Bool :=
  match s.data with
  | [] => false
  | c :: rest => c.isAlpha && schemeTail rest

/-- Render a query-parameter list as `k=v` pairs joined by `&`
(percent-encoding is not modelled; the inputs used here need none). -/
def renderParams : List (String × String) → String
  | [] => ""
  | [(k, v)] => k ++ "=" ++ v
  | (k, v) :: rest => k ++ "=" ++ v ++ "&" ++ renderParams rest

/-- `Url::parse_with_params(url, params)` followed by `into_string`:
fails like `Url::parse` when the string has no scheme; on success appends
`?` and the rendered parameters when there are any. -/
def parseWithParams (url : String) (params : List (String × String)) :
    Except UrlError String :=
  if urlHasScheme url then
    Except.ok (if params.isEmpty then url else url ++ "?" ++ renderParams params)
  else
    Except.error "RelativeUrlWithoutBase"

/-- Outcome of a Rust expression that may panic: `Result::unwrap` on an
`Err` aborts the program instead of returning. -/
inductive MayPanic (α : Type) where
  | value (a : α) : MayPanic α
  | panicked : MayPanic α
deriving Repr, DecidableEq

/-- `Result::unwrap`. -/
def unwrapOrPanic {ε α : Type} : Except ε α → MayPanic α
  | Except.ok a => MayPanic.value a
  | Except.error _ => MayPanic.panicked

/-- The query-parameter list assembled by `Mastodon::statuses` (lib.rs). -/
def statusesParams (only_media exclude_replies : Bool)
    (since_id max_id : Option Nat) : List (String × String) :=
  (if only_media then [("only_media", "1")] else [])
    ++ (if exclude_replies then [("exclude_replies", "1")] else [])
    ++ (match since_id with | some s => [("since_id", Nat.repr s)] | none => [])
    ++ (match max_id with | some m => [("max_id", Nat.repr m)] | none => [])

/-- The URL construction of `Mastodon::statuses` (lib.rs):
`Url::parse_with_params(format!("\x7b\x7d/api/v1/accounts/\x7b\x7d/statuses", base, id), params).unwrap()`
— the `.unwrap()` makes an unparseable base a panic, not a returned error. -/
def statusesUrl (m : Mastodon) (id : Nat) (only_media exclude_replies : Bool)
    (since_id max_id : Option Nat) : MayPanic String :=
  unwrapOrPanic (parseWithParams
    (m.data.base ++ "/api/v1/accounts/" ++ Nat.repr id ++ "/statuses")
    (statusesParams only_media exclude_replies since_id max_id))

/-- `Mastodon::statuses` (lib.rs): build the URL (panicking on a base that
does not parse), then GET through the `methods!` helper. -/
def statuses {α : Type} (decode : Json → Except SerdeError α) (m : Mastodon)
    (server : Server) (id : Nat) (only_media exclude_replies : Bool)
    (since_id max_id : Option Nat) : MayPanic (Result α × Mastodon) :=
  match statusesUrl m id only_media exclude_replies since_id max_id with
  | MayPanic.panicked => MayPanic.panicked
  | MayPanic.value url => MayPanic.value (methodCall decode m server Verb.get url)

/-- `Mastodon::get_public_timeline` (lib.rs): route plus an optional
`?local=1` suffix, then GET. The Rust parameter is named `local`, a
reserved word here. -/
def getPublicTimelineUrl (m : Mastodon) (localFlag : Bool) : String :=
  let url := m.route "/api/v1/timelines/public"
  if localFlag then url ++ "?local=1" else url

/-- The serde `Serialize` impl derived for `Data`: a JSON object with the
five string fields in declaration order. -/
def serializeData (d : Data) : Json :=
  Json.obj [("base", Json.str d.base),
            ("client_id", Json.str d.client_id),
            ("client_secret", Json.str d.client_secret),
            ("redirect", Json.str d.redirect),
            ("token", Json.str d.token)]

/-- The serde `Deserialize` impl derived for `Data`: field lookup by name
(order-insensitive), all five required as strings. -/
def deserializeData (j : Json) : Except SerdeError Data :=
  match j with
  | Json.obj fields =>
    match lookupField fields "base", lookupField fields "client_id",
          lookupField fields "client_secret", lookupField fields "redirect",
          lookupField fields "token" with
    | some (Json.str b), some (Json.str ci), some (Json.str cs),
      some (Json.str r), some (Json.str t) =>
        Except.ok { base := b, client_id := ci, client_secret := cs,
                    redirect := r, token := t }
    | _, _, _, _, _ => Except.error "invalid or missing field for struct Data"
  | _ => Except.error "invalid type: expected struct Data"

/-- The serde `Deserialize` impl for `Vec<String>` (the success type of the
`domain_blocks` route), used as a concrete decoder in witnesses. -/
def decodeStringList (j : Json) : Except SerdeError (List String) :=
  match j with
  | Json.arr elems =>
    elems.foldr
      (fun e acc =>
        match e, acc with
        | Json.str s, Except.ok l => Except.ok (s :: l)
        | _, Except.ok _ => Except.error "invalid type: expected a string"
        | _, Except.error msg => Except.error msg)
      (Except.ok [])
  | _ => Except.error "invalid type: expected a sequence"

/-- The `domain_blocks` route (lib.rs): a plain `(get)` arm of `route!`,
dispatched through the `methods!` helper with no status check. -/
def domain_blocks (m : Mastodon) (server : Server) :
    Result (List String) × Mastodon :=
  plainRouteCall decodeStringList m server Verb.get "domain_blocks"

/-- The parts accumulated by the `relationships` loop: one
`id[]=<id>&` segment per id, in order. -/
def queryParts : List Nat → String
  | [] => ""
  | id :: rest => "id[]=" ++ Nat.repr id ++ ("&" ++ queryParts rest)

/-- Joining with `&` and no trailing separator, the shape the specification
describes for a multi-id query string. -/
def joinAmp : List String → String
  | [] => ""
  | [s] => s
  | s :: rest => s ++ ("&" ++ joinAmp rest)

/-- A sample API error body: `{"error": ..., "error_description": ...}`. -/
def errJson : Json :=
  Json.obj [("error", Json.str "invalid_grant"),
            ("error_description", Json.str "The access token expired")]

/-- A sample success body for a `Vec<String>` route. -/
def okJson : Json := Json.arr [Json.str "a.example"]

/-- A sample body matching neither the success shape nor the error shape. -/
def badJson : Json := Json.num 3

/-- A sample authenticated session record. -/
def d0 : Data :=
  { base := "https://example.social", client_id := "cid", client_secret := "csecret",
    redirect := "urn:ietf:wg:oauth:2.0:oob", token := "tok123" }

/-- A session record whose token field is empty. -/
def dNoToken : Data :=
  { base := "https://example.social", client_id := "cid", client_secret := "csecret",
    redirect := "urn:ietf:wg:oauth:2.0:oob", token := "" }

/-- A mock server answering 404 with a body that is not valid JSON. -/
def srv404 : Server := fun _ => Except.ok ⟨404, Except.ok none⟩

/-- A mock server answering 403 with a well-formed API error body. -/
def srv403Api : Server := fun _ => Except.ok ⟨403, Except.ok (some errJson)⟩

/-- A mock server answering 200 with a well-formed success body. -/
def srv200 : Server := fun _ => Except.ok ⟨200, Except.ok (some okJson)⟩

/-- A mock server answering 500 with a body that is not valid JSON. -/
def srv500 : Server := fun _ => Except.ok ⟨500, Except.ok none⟩

/-- A session record whose base is not a parseable absolute URL. -/
def dBadBase : Data :=
  { base := "", client_id := "cid", client_secret := "csecret",
    redirect := "urn:ietf:wg:oauth:2.0:oob", token := "tok123" }

lemma substPlaceholder_of_no_placeholder (v post : List Char) :
    ∀ pre, hasPlaceholder pre = false →
      substPlaceholder v (pre ++ '{' :: '}' :: post) = pre ++ (v ++ post)
  | [], _ => by simp [substPlaceholder]
  | [c], _ => by simp [substPlaceholder]
  | c :: d :: rest, h => by
    simp only [hasPlaceholder, Bool.or_eq_false_iff, Bool.and_eq_false_iff,
      decide_eq_false_iff_not] at h
    obtain ⟨h1, h2⟩ := h
    have hcd : ¬(c = '{' ∧ d = '}') := by
      intro hcd
      rcases h1 with h1 | h1
      · exact h1 hcd.1
      · exact h1 hcd.2
    have hrec := substPlaceholder_of_no_placeholder v post (d :: rest) h2
    simp only [List.cons_append, List.append_eq] at hrec ⊢
    simp only [substPlaceholder, if_neg hcd, hrec]

/-- Claim C7: a dispatched operation targets exactly `base ++ "/api/v1/" ++ path`:
plain concatenation by `route`, the numeric id substituted into the single
placeholder by the `route_id!` arms, and query parameters appended verbatim
for read filters. -/
theorem route_url_concatenation (m : Mastodon) (path url : String)
    (pre post : List Char) (id : Nat) (localFlag : Bool)
    (hsplit : ("/api/v1/" ++ url).data = pre ++ '{' :: '}' :: post)
    (hpre : hasPlaceholder pre = false) :
    m.route ("/api/v1/" ++ path) = m.data.base ++ "/api/v1/" ++ path
    ∧ m.route (formatId ("/api/v1/" ++ url) id)
        = m.data.base ++ String.mk (pre ++ ((Nat.repr id).data ++ post))
    ∧ getPublicTimelineUrl m localFlag
        = m.data.base ++ "/api/v1/timelines/public"
            ++ (if localFlag then "?local=1" else "") := by
  refine ⟨(String.append_assoc _ _ _).symm, ?_, ?_⟩
  · unfold Mastodon.route formatId
    rw [hsplit, substPlaceholder_of_no_placeholder _ _ _ hpre]
  · unfold getPublicTimelineUrl Mastodon.route
    cases localFlag
    · simp [String.append_empty]
    · simp [String.append_assoc]

/-- Witness for C7 at the `followers` route of the `route_id!` table. -/
theorem route_url_concatenation_witness :
    (Mastodon.from_data d0).route (formatId ("/api/v1/" ++ "accounts/{}/followers") 7)
      = "https://example.social/api/v1/accounts/7/followers" := by
  rw [(route_url_concatenation (Mastodon.from_data d0) "blocks" "accounts/{}/followers"
    ("/api/v1/accounts/".data) ("/followers".data) 7 true (by decide) (by decide)).2.1]
  decide

lemma strPop_concat (s t : String) (c : Char) (h : t.data = [c]) :
    strPop (s ++ t) = s := by
  apply String.ext
  simp [strPop, String.data_append, h, List.dropLast_concat]

lemma foldl_queryParts : ∀ (l : List Nat) (u : String),
    l.foldl (fun u id => u ++ "id[]=" ++ Nat.repr id ++ "&") u = u ++ queryParts l
  | [], u => by simp [queryParts, String.append_empty]
  | i :: rest, u => by
    simp only [List.foldl_cons]
    rw [foldl_queryParts rest]
    simp [queryParts, String.append_assoc]

lemma queryParts_eq_joinAmp : ∀ (l : List Nat), l ≠ [] →
    queryParts l = joinAmp (l.map (fun i => "id[]=" ++ Nat.repr i)) ++ "&"
  | [], h => absurd rfl h
  | [i], _ => by simp [queryParts, joinAmp, String.append_empty]
  | i :: j :: rest, _ => by
    rw [queryParts, queryParts_eq_joinAmp (j :: rest) (by simp)]
    simp [joinAmp, String.append_assoc]

/-- Claim C10: the `relationships` URL: bare path with the trailing `?` popped for
an empty id list, `?id=<id>` for a single id, and `?` followed by
`id[]=<id>` pairs joined by `&` with no trailing separator otherwise. -/
theorem relationships_query (m : Mastodon) (ids : List Nat) :
    relationshipsUrl m ids
      = m.data.base ++ "/api/v1/accounts/relationships"
        ++ (match ids with
            | [] => ""
            | [a] => "?id=" ++ Nat.repr a
            | _ => "?" ++ joinAmp (ids.map (fun i => "id[]=" ++ Nat.repr i))) := by
  have e1 : ("/api/v1/accounts/relationships?" : String)
      = "/api/v1/accounts/relationships" ++ "?" := rfl
  match ids with
  | [] =>
    simp only [relationshipsUrl, Mastodon.route]
    rw [dif_neg (by simp), List.foldl_nil, e1, ← String.append_assoc,
      strPop_concat _ _ '?' rfl, String.append_empty]
  | [a] =>
    have e2 : ("?id=" : String) = "?" ++ "id=" := rfl
    simp only [relationshipsUrl, Mastodon.route]
    rw [dif_pos (by simp)]
    simp only [List.get, e1, e2, String.append_assoc]
  | a :: b :: rest =>
    simp only [relationshipsUrl, Mastodon.route]
    rw [dif_neg (by simp), foldl_queryParts, queryParts_eq_joinAmp _ (by simp),
      ← String.append_assoc, strPop_concat _ _ '&' rfl, e1]
    simp only [String.append_assoc]

lemma deserialise_never_access_token {α : Type} (decode : Json → Except SerdeError α)
    (response : Response) :
    deserialise decode response ≠ Except.error Error.AccessTokenRequired := by
  unfold deserialise
  split
  · simp
  · split
    · simp
    · split <;> simp

/-- Claim C2 counterexample: `domain_blocks` is a plain `(get)` route dispatched
through the `methods!` helper; on a 404 with an undecodable body it returns
the serde failure, not `Error::Client(404)`. -/
theorem plain_route_ignores_status_counterexample :
    (domain_blocks (Mastodon.from_data d0) srv404).1
      = Except.error (Error.Serde "expected value")
    ∧ (domain_blocks (Mastodon.from_data d0) srv404).1
      ≠ Except.error (Error.Client 404) := by
  have h1 : (domain_blocks (Mastodon.from_data d0) srv404).1
      = Except.error (Error.Serde "expected value") := rfl
  exact ⟨h1, by rw [h1]; simp⟩

/-- Claim C2 amended: on the body-carrying dispatch path (parameterised and
multipart `route!` arms, `update_credentials`), a 4xx response is classified
as `Error::Client(status)` and a 5xx as `Error::Server(status)` regardless
of the body, with no attempt to parse it; plain routes skip this check. -/
theorem status_check_classifies_4xx_5xx {α : Type}
    (decode : Json → Except SerdeError α) (m : Mastodon) (server : Server)
    (verb : Verb) (url : String) (form_data : Json) (response : Response)
    (hsend : server ⟨verb, url, m.headers, some form_data⟩ = Except.ok response) :
    (isClientError response.status = true →
      (routeJsonCall decode m server verb url form_data).1
        = Except.error (Error.Client response.status))
    ∧ (isServerError response.status = true →
      (routeJsonCall decode m server verb url form_data).1
        = Except.error (Error.Server response.status)) := by
  constructor
  · intro h
    simp [routeJsonCall, hsend, routeResponseHandler, h]
  · intro h
    have hc : isClientError response.status = false := by
      simp only [isServerError, Bool.and_eq_true, decide_eq_true_eq] at h
      simp only [isClientError, Bool.and_eq_false_iff, decide_eq_false_iff_not]
      exact Or.inr (Nat.not_lt.mpr h.1)
    simp [routeJsonCall, hsend, routeResponseHandler, h, hc]

/-- Witness for C2: the 4xx and 5xx classifications on concrete responses. -/
theorem status_check_classifies_witness :
    (routeJsonCall decodeStringList (Mastodon.from_data d0) srv404 Verb.post
        "https://example.social/api/v1/reports" (Json.obj [])).1
      = Except.error (Error.Client 404)
    ∧ (routeJsonCall decodeStringList (Mastodon.from_data d0) srv500 Verb.post
        "https://example.social/api/v1/reports" (Json.obj [])).1
      = Except.error (Error.Server 500) :=
  ⟨(status_check_classifies_4xx_5xx decodeStringList (Mastodon.from_data d0) srv404
      Verb.post "https://example.social/api/v1/reports" (Json.obj [])
      ⟨404, Except.ok none⟩ rfl).1 (by decide),
   (status_check_classifies_4xx_5xx decodeStringList (Mastodon.from_data d0) srv500
      Verb.post "https://example.social/api/v1/reports" (Json.obj [])
      ⟨500, Except.ok none⟩ rfl).2 (by decide)⟩

/-- Claim C3 counterexample: a 403 response whose body is a well-formed API Error
Payload, sent through a status-checking route arm, is classified as
`Error::Client(403)`: the body is never inspected, so the claim "ApiError
regardless of the HTTP status code" fails on these routes. -/
theorem api_error_body_4xx_counterexample :
    (routeJsonCall decodeStringList (Mastodon.from_data d0) srv403Api Verb.post
        "https://example.social/api/v1/follows" (Json.obj [])).1
      = Except.error (Error.Client 403)
    ∧ (routeJsonCall decodeStringList (Mastodon.from_data d0) srv403Api Verb.post
        "https://example.social/api/v1/follows" (Json.obj [])).1
      ≠ Except.error
          (Error.Api ⟨"invalid_grant", some "The access token expired"⟩) := by
  have h1 : (routeJsonCall decodeStringList (Mastodon.from_data d0) srv403Api Verb.post
      "https://example.social/api/v1/follows" (Json.obj [])).1
      = Except.error (Error.Client 403) := rfl
  exact ⟨h1, by rw [h1]; simp⟩

/-- Claim C3 amended: once a response reaches `deserialise` (always, for plain
routes; only for non-4xx/5xx statuses on status-checking routes), a body
shaped like the API Error Payload never produces a decode failure, and
yields `Error::Api` with exactly the payload fields whenever the body does
not also decode as the success type. -/
theorem api_error_body_yields_api_error {α : Type}
    (decode : Json → Except SerdeError α) (status : StatusCode) (j : Json)
    (a : ApiError) (ha : decodeApiError j = Except.ok a) :
    (∀ e, deserialise decode ⟨status, Except.ok (some j)⟩
      ≠ Except.error (Error.Serde e))
    ∧ (∀ e, decode j = Except.error e →
        deserialise decode ⟨status, Except.ok (some j)⟩
          = Except.error (Error.Api a))
    ∧ (isClientError status = false → isServerError status = false →
        routeResponseHandler decode ⟨status, Except.ok (some j)⟩
          = deserialise decode ⟨status, Except.ok (some j)⟩) := by
  refine ⟨?_, ?_, ?_⟩
  · intro e
    cases hd : decode j <;> simp [deserialise, fromSlice, hd, ha]
  · intro e hd
    simp [deserialise, fromSlice, hd, ha]
  · intro h1 h2
    simp [routeResponseHandler, h1, h2]

/-- Witness for C3: a 401 response with an API-error body decodes to
`Error::Api` with the exact payload fields. -/
theorem api_error_body_yields_api_error_witness :
    deserialise decodeStringList ⟨401, Except.ok (some errJson)⟩
      = Except.error (Error.Api ⟨"invalid_grant", some "The access token expired"⟩)
    ∧ routeResponseHandler decodeStringList ⟨200, Except.ok (some errJson)⟩
      = deserialise decodeStringList ⟨200, Except.ok (some errJson)⟩ :=
  ⟨(api_error_body_yields_api_error decodeStringList 401 errJson
      ⟨"invalid_grant", some "The access token expired"⟩ rfl).2.1
      "invalid type: expected a sequence" rfl,
   (api_error_body_yields_api_error decodeStringList 200 errJson
      ⟨"invalid_grant", some "The access token expired"⟩ rfl).2.2 rfl rfl⟩

/-- Claim C4: with an empty token the dispatcher performs no precondition check:
it still assembles the request, now bearing the header
`Authorization: Bearer ` with an empty credential, sends it, and its result
is never `Error::AccessTokenRequired`. -/
theorem empty_token_sends_request_no_precondition {α : Type}
    (decode : Json → Except SerdeError α) (d : Data) (server : Server)
    (verb : Verb) (url : String) (h : d.token = "") :
    (methodRequest (Mastodon.from_data d) verb url).headers
      = [("Authorization", "Bearer ")]
    ∧ (methodCall decode (Mastodon.from_data d) server verb url).1
        ≠ Except.error Error.AccessTokenRequired := by
  constructor
  · simp [methodRequest, Mastodon.from_data, authorizationBearer, h]
  · cases hs : server (methodRequest (Mastodon.from_data d) verb url) with
    | error e => simp [methodCall, hs]
    | ok resp =>
      simp only [methodCall, hs]
      exact deserialise_never_access_token decode resp

/-- Witness for C4 on a concrete empty-token record. -/
theorem empty_token_sends_request_witness :
    (methodRequest (Mastodon.from_data dNoToken) Verb.get
        "https://example.social/api/v1/blocks").headers
      = [("Authorization", "Bearer ")]
    ∧ (methodCall decodeStringList (Mastodon.from_data dNoToken) srv200 Verb.get
        "https://example.social/api/v1/blocks").1
      ≠ Except.error Error.AccessTokenRequired :=
  empty_token_sends_request_no_precondition decodeStringList dNoToken srv200 Verb.get
    "https://example.social/api/v1/blocks" rfl

/-- Claim C5: `Mastodon::statuses` reaches `Url::parse_with_params(..).unwrap()`;
with a session record whose base is not a parseable URL the call panics
instead of returning the `Error::Url` value the error enum provides. -/
theorem statuses_unwrap_panics_on_bad_base :
    statusesUrl (Mastodon.from_data dBadBase) 1 false false none none
      = MayPanic.panicked
    ∧ statuses decodeStringList (Mastodon.from_data dBadBase) srv200 1 false false
        none none = MayPanic.panicked :=
  ⟨rfl, rfl⟩

/-- Claim C1: deserialisation first attempts the success type; exactly when
that fails the same bytes are retried as an API Error Payload; a
second-attempt success yields `Error::Api`, a double failure propagates the
first (success-type) failure as `Error::Serde`. -/
theorem deserialise_tie_break {α : Type} (decode : Json → Except SerdeError α)
    (status : StatusCode) (vec : RawBody) :
    (∀ t, fromSlice decode vec = Except.ok t →
      deserialise decode ⟨status, Except.ok vec⟩ = Except.ok t)
    ∧ (∀ e a, fromSlice decode vec = Except.error e →
        fromSlice decodeApiError vec = Except.ok a →
        deserialise decode ⟨status, Except.ok vec⟩ = Except.error (Error.Api a))
    ∧ (∀ e e2, fromSlice decode vec = Except.error e →
        fromSlice decodeApiError vec = Except.error e2 →
        deserialise decode ⟨status, Except.ok vec⟩ = Except.error (Error.Serde e)) := by
  refine ⟨?_, ?_, ?_⟩ <;> intros <;> simp [deserialise, *]

/-- Witness for C1: all three branches exercised on concrete bodies. -/
theorem deserialise_tie_break_witness :
    deserialise decodeStringList ⟨200, Except.ok (some okJson)⟩ = Except.ok ["a.example"]
    ∧ deserialise decodeStringList ⟨200, Except.ok (some errJson)⟩
        = Except.error (Error.Api ⟨"invalid_grant", some "The access token expired"⟩)
    ∧ deserialise decodeStringList ⟨200, Except.ok (some badJson)⟩
        = Except.error (Error.Serde "invalid type: expected a sequence") :=
  ⟨(deserialise_tie_break decodeStringList 200 (some okJson)).1 ["a.example"] rfl,
   (deserialise_tie_break decodeStringList 200 (some errJson)).2.1
     "invalid type: expected a sequence"
     ⟨"invalid_grant", some "The access token expired"⟩ rfl rfl,
   (deserialise_tie_break decodeStringList 200 (some badJson)).2.2
     "invalid type: expected a sequence"
     "invalid type: expected struct ApiError" rfl rfl⟩

/-- Claim C8: the session record round-trips through its serde
serialisation with no loss. -/
theorem data_round_trip (d : Data) :
    deserializeData (serializeData d) = Except.ok d := rfl

/-- Claim C9: dispatch is deterministic and stateless: against the same
server oracle, two successive calls with the same inputs produce equal
results, and each call leaves the client exactly as it was. -/
theorem dispatch_deterministic_stateless {α : Type}
    (decode : Json → Except SerdeError α) (m : Mastodon) (server : Server)
    (verb : Verb) (url : String) :
    (methodCall decode m server verb url).2 = m
    ∧ (methodCall decode (methodCall decode m server verb url).2 server verb url).1
        = (methodCall decode m server verb url).1
    ∧ (routeJsonCall decode m server verb url (Json.obj [])).2 = m := by
  have h2 : (methodCall decode m server verb url).2 = m := by
    cases h : server (methodRequest m verb url) <;> simp [methodCall, h]
  refine ⟨h2, by rw [h2], ?_⟩
  cases h : server ⟨verb, url, m.headers, some (Json.obj [])⟩ <;> simp [routeJsonCall, h]

/-- Claim C6: a client built from a session record carries exactly one
header, `Authorization: Bearer {token}` with the record token verbatim, on
every request it assembles, and no operation changes it. -/
theorem bearer_headers_invariant (d : Data)
    (base client_id client_secret redirect token : String) (client : Client)
    {α : Type} (decode : Json → Except SerdeError α) (server : Server)
    (verb : Verb) (url : String) (form_data : Json) :
    (Mastodon.from_data d).headers = [("Authorization", "Bearer " ++ d.token)]
    ∧ (Mastodon.from_registration base client_id client_secret redirect token
        client).headers = [("Authorization", "Bearer " ++ token)]
    ∧ (methodRequest (Mastodon.from_data d) verb url).headers
        = (Mastodon.from_data d).headers
    ∧ (methodCall decode (Mastodon.from_data d) server verb url).2
        = Mastodon.from_data d
    ∧ (routeJsonCall decode (Mastodon.from_data d) server verb url form_data).2
        = Mastodon.from_data d := by
  refine ⟨rfl, rfl, rfl, ?_, ?_⟩
  · cases h : server (methodRequest (Mastodon.from_data d) verb url) <;>
      simp [methodCall, h]
  · cases h : server ⟨verb, url, (Mastodon.from_data d).headers, some form_data⟩ <;>
      simp [routeJsonCall, h]

end Mammut
